import Mathlib

/-!
Verification of the OAI-PMH client core (`src/oai_pmh_client/client.py`).

The development shallowly embeds the client's protocol engine:
* a model of parsed XML trees together with the two lxml lookup shapes the
  client uses (`find` on direct children, `find`/`findall` with a `.//`
  descendant path);
* the error taxonomy and the envelope check of `OAIClient._request`;
* the parameter builder of `OAIClient._request` (drop `None`-valued entries,
  prepend `verb`);
* the datestamp formatter `OAIClient._format_datestamp`, with Python
  `datetime` values modelled as broken-down civil fields plus an optional
  UTC offset in seconds;
* the resumption-token pagination loop shared by `list_sets`,
  `list_identifiers` and `list_records`, run against an explicit list of
  response envelopes, recording every dispatched request.
-/

/-! ## XML model -/

/-- A parsed XML element: tag (namespace-qualified local name; the OAI
namespace is uniform so only local names are kept), attributes, text
content (`none` when the element has no text node, as in lxml), and child
elements in document order. -/
inductive XElem where
  | mk (tag : String) (attrs : List (String × String)) (text : Option String)
      (children : List XElem)

def XElem.tag : XElem → String
  | .mk t _ _ _ => t

def XElem.attrs : XElem → List (String × String)
  | .mk _ a _ _ => a

def XElem.text : XElem → Option String
  | .mk _ _ tx _ => tx

def XElem.children : XElem → List XElem
  | .mk _ _ _ cs => cs

mutual

/-- All elements of the subtree rooted at `e` (including `e` itself) whose
tag is `t`, in document order: the semantics of an lxml `.//tag` node set
relative to a node. -/
def descAll (t : String) : XElem → List XElem
  | .mk tag a tx cs =>
      (if tag = t then [XElem.mk tag a tx cs] else []) ++ descAllList t cs

def descAllList (t : String) : List XElem → List XElem
  | [] => []
  | c :: cs => descAll t c ++ descAllList t cs

end

/-- `element.findall(".//oai:t")`: every descendant of `e` (excluding `e`
itself) with tag `t`, in document order. -/
def findall (t : String) (e : XElem) : List XElem :=
  descAllList t e.children

/-- `element.find(".//oai:t")`: the first descendant with tag `t`, or
`none`. -/
def findDesc (t : String) (e : XElem) : Option XElem :=
  (findall t e).head?

/-- `element.find("oai:t")` with a relative single-step path: the first
direct child with tag `t`, or `none`. -/
def findChild (t : String) (e : XElem) : Option XElem :=
  e.children.find? (fun c => c.tag = t)

/-- `element.get(k, d)`: attribute lookup with default. -/
def XElem.attrD (e : XElem) (k d : String) : String :=
  (e.attrs.lookup k).getD d

/-- `element.text or ""`: the text content, with `None` (and only `None`)
replaced by the empty string. -/
def XElem.textD (e : XElem) : String :=
  e.text.getD ""

/-! ## Error taxonomy

`exceptions.py` is not part of the examined sources; per the spec the
exception classes form a closed set of distinct kinds over a shared base.
Modelled from the spec: `ErrKind` has one constructor per imported
exception class, with `oaiError` for the base class `OAIError` (which the
code also uses as the fallback for unrecognized codes). -/

inductive ErrKind where
  | oaiError
  | badArgument
  | badResumptionToken
  | badVerb
  | cannotDisseminateFormat
  | idDoesNotExist
  | noRecordsMatch
  | noMetadataFormats
  | noSetHierarchy
deriving DecidableEq

/-- The `OAI_ERROR_MAP` dict of `client.py`: protocol error code →
exception class. -/
def OAI_ERROR_MAP : List (String × ErrKind) :=
  [("badArgument", .badArgument),
   ("badResumptionToken", .badResumptionToken),
   ("badVerb", .badVerb),
   ("cannotDisseminateFormat", .cannotDisseminateFormat),
   ("idDoesNotExist", .idDoesNotExist),
   ("noRecordsMatch", .noRecordsMatch),
   ("noMetadataFormats", .noMetadataFormats),
   ("noSetHierarchy", .noSetHierarchy)]

/-- `OAI_ERROR_MAP.get(code, OAIError)`. -/
def errKindOf (code : String) : ErrKind :=
  (OAI_ERROR_MAP.lookup code).getD .oaiError

/-- The failures `_request` can raise: `httpx` connection/status errors
(grouped by the spec as the transport kind), an XML parse failure, or a
protocol error carrying an `ErrKind` and the server-supplied message. -/
inductive Failure where
  | transportError
  | malformedResponse
  | oai (kind : ErrKind) (msg : String)
deriving DecidableEq

/-- The envelope check at the end of `_request`: look for a direct child
`oai:error`; if present raise the mapped exception with the element's text
(empty string when absent), else return the tree. -/
def checkEnvelope (xml : XElem) : Except Failure XElem :=
  match findChild "error" xml with
  | some e => .error (.oai (errKindOf (e.attrD "code" "")) e.textD)
  | none => .ok xml

/-! ## Request construction and dispatch -/

/-- The parameter build of `_request`: start from `{"verb": verb}` and add
every keyword argument whose value is not `None`. Keyword arguments are
modelled as an association list with `Option String` values (`none` =
Python `None`). -/
def buildParams (verb : String) (kwargs : List (String × Option String)) :
    List (String × String) :=
  ("verb", verb) :: kwargs.filterMap (fun p => p.2.map (fun v => (p.1, v)))

/-- What the external HTTP transport produced for one dispatch: a
connection failure, or a response with a status code and a body. The body
is `some xml` when `etree.fromstring` parses it and `none` when the bytes
are not well-formed XML. -/
inductive TransportOutcome where
  | connError
  | response (status : Nat) (body : Option XElem)

/-- `_request` around one transport outcome: a connection failure raises
(an `httpx` transport exception); `raise_for_status` raises on any
non-2xx status; `etree.fromstring` raises on a malformed body; then the
envelope error check runs. -/
def request (outcome : TransportOutcome) : Except Failure XElem :=
  match outcome with
  | .connError => .error .transportError
  | .response status body =>
      if 200 ≤ status ∧ status < 300 then
        match body with
        | none => .error .malformedResponse
        | some xml => checkEnvelope xml
      else .error .transportError

/-! ## Datestamp formatter -/

/-- A Python `datetime` value: civil fields plus an optional fixed UTC
offset in seconds (`none` = naive; `datetime.timezone` requires the offset
to be strictly between -24h and +24h). -/
structure PyDateTime where
  year : Nat
  month : Nat
  day : Nat
  hour : Nat
  minute : Nat
  second : Nat
  microsecond : Nat
  tzoffset : Option Int
deriving DecidableEq

/-- Gregorian leap-year rule. -/
def isLeap (y : Nat) : Bool :=
  (y % 4 == 0 && y % 100 != 0) || y % 400 == 0

def daysInMonth (y m : Nat) : Nat :=
  if m = 2 then (if isLeap y then 29 else 28)
  else if m = 4 ∨ m = 6 ∨ m = 9 ∨ m = 11 then 30
  else 31

/-- The civil date one day after `(y, m, d)`. -/
def nextDay (y m d : Nat) : Nat × Nat × Nat :=
  if d < daysInMonth y m then (y, m, d + 1)
  else if m < 12 then (y, m + 1, 1)
  else (y + 1, 1, 1)

/-- The civil date one day before `(y, m, d)`. -/
def prevDay (y m d : Nat) : Nat × Nat × Nat :=
  if 1 < d then (y, m, d - 1)
  else if 1 < m then (y, m - 1, daysInMonth y (m - 1))
  else (y - 1, 12, 31)

def secondsOfDay (d : PyDateTime) : Int :=
  (d.hour * 3600 + d.minute * 60 + d.second : Nat)

/-- Rebuild a datetime on a given civil date from a second-of-day value
in `[0, 86400)`, keeping the microseconds and attaching the UTC zone. -/
def withSecondOfDay (ymd : Nat × Nat × Nat) (s : Int) (micro : Nat) :
    PyDateTime :=
  let sn := s.toNat
  ⟨ymd.1, ymd.2.1, ymd.2.2, sn / 3600, sn / 60 % 60, sn % 60, micro, some 0⟩

/-- `dt.astimezone(timezone.utc)` preceded, for naive input, by
`dt.replace(tzinfo=timezone.utc)` (the naive branch of
`_format_datestamp`): a naive value keeps its fields and is stamped UTC;
an aware value has its offset subtracted, moving at most one civil day in
either direction since a Python `timezone` offset is strictly smaller
than one day. -/
def toUTC (d : PyDateTime) : PyDateTime :=
  match d.tzoffset with
  | none => { d with tzoffset := some 0 }
  | some off =>
      let s : Int := secondsOfDay d - off
      if s < 0 then
        withSecondOfDay (prevDay d.year d.month d.day) (s + 86400) d.microsecond
      else if 86400 ≤ s then
        withSecondOfDay (nextDay d.year d.month d.day) (s - 86400) d.microsecond
      else
        withSecondOfDay (d.year, d.month, d.day) s d.microsecond

/-- Decimal digit characters of `n`, most significant first, accumulated
right to left; the fuel argument only drives the recursion and any fuel
above the digit count of `n` yields the same list. -/
def decAux : Nat → Nat → List Char → List Char
  | 0, _, acc => acc
  | fuel + 1, n, acc =>
      if n < 10 then Nat.digitChar n :: acc
      else decAux fuel (n / 10) (Nat.digitChar (n % 10) :: acc)

/-- Decimal rendering of a natural number, as C's `%d` / Python's `%d`. -/
def dec (n : Nat) : List Char :=
  decAux (n + 1) n []

/-- Zero-padded decimal of width `w`, as `%0wd`: the semantics of the
`strftime` fields `%Y` (width 4) and `%m`/`%d`/`%H`/`%M`/`%S` (width 2). -/
def zpad (w n : Nat) : List Char :=
  List.replicate (w - (dec n).length) '0' ++ dec n

/-- `strftime("%Y-%m-%dT%H:%M:%SZ")` over the six rendered fields. -/
def render (y mo dd h mi s : Nat) : String :=
  ⟨zpad 4 y ++ '-' :: (zpad 2 mo ++ '-' :: (zpad 2 dd ++ 'T' ::
    (zpad 2 h ++ ':' :: (zpad 2 mi ++ ':' :: (zpad 2 s ++ ['Z'])))))⟩

/-- The `Datestamp = Union[datetime, str]` input domain of
`_format_datestamp`. -/
inductive Datestamp where
  | str (s : String)
  | dt (d : PyDateTime)

/-- `OAIClient._format_datestamp`: a string passes through unchanged; a
naive datetime is stamped UTC; an aware one is converted to UTC; the
result is rendered at second precision with a literal `Z`. -/
def formatDatestamp : Datestamp → String
  | .str s => s
  | .dt d =>
      let u := toUTC d
      render u.year u.month u.day u.hour u.minute u.second

/-- Python truthiness of a `Datestamp | None` value, as used in
`self._format_datestamp(from_date) if from_date else None`: `None` and
the empty string are falsy; every `datetime` object is truthy. -/
def truthyDatestamp : Option Datestamp → Bool
  | none => false
  | some (.str s) => s ≠ ""
  | some (.dt _) => true

/-- The `from`/`until` entry value of `list_identifiers`/`list_records`:
`self._format_datestamp(x) if x else None`. -/
def optFormat (o : Option Datestamp) : Option String :=
  if truthyDatestamp o then (o.map formatDatestamp) else none

/-- The argument ranges the `datetime` constructor enforces
(`MINYEAR = 1`, `MAXYEAR = 9999`, months, month-length-aware days, time
fields, microseconds) together with the `timezone` bound on the offset. -/
def isValid (d : PyDateTime) : Bool :=
  1 ≤ d.year && d.year ≤ 9999 && 1 ≤ d.month && d.month ≤ 12 &&
  1 ≤ d.day && d.day ≤ daysInMonth d.year d.month &&
  d.hour ≤ 23 && d.minute ≤ 59 && d.second ≤ 59 && d.microsecond ≤ 999999 &&
  (match d.tzoffset with
   | none => true
   | some o => decide (-86400 < o) && decide (o < 86400))

/-- Consume exactly `k` decimal digit characters and then the separator
`sep`, returning the rest of the character list. -/
def digitsThen : Nat → Char → List Char → Option (List Char)
  | 0, sep, c :: rest => if c = sep then some rest else none
  | k + 1, sep, c :: rest => if c.isDigit then digitsThen k sep rest else none
  | _, _, [] => none

/-- `s` has the exact shape `YYYY-MM-DDTHH:MM:SSZ`: four digits, dash, two
digits, dash, two digits, `T`, three two-digit groups separated by colons,
final `Z`, and nothing else (in particular no fractional seconds). -/
def isOAITimestamp (s : String) : Bool :=
  ((((((digitsThen 4 '-' s.data).bind (digitsThen 2 '-')).bind
      (digitsThen 2 'T')).bind (digitsThen 2 ':')).bind
      (digitsThen 2 ':')).bind (digitsThen 2 'Z')) == some []

/-! ## Pagination engine

`list_sets`, `list_identifiers` and `list_records` share one loop: request
with the current parameters, yield every `.//` match of the item tag in
document order, then look for `.//oai:resumptionToken`; if the element is
absent or its text is falsy (`None` or `""`) the loop breaks, otherwise the
next iteration's parameters are exactly `{"resumptionToken": token.value}`.
`models.py` is not part of the examined sources; modelled from the spec:
`ResumptionToken.from_xml(e).value` is the opaque string value of the
token element, i.e. its text. -/

/-- The loop's continuation decision: `some t` when a resumption-token
element is present with truthy text `t`, `none` when the element is absent
or its text is `None` or `""` (the `token_element is None or not
token_element.text` break). -/
def tokenOf (xml : XElem) : Option String :=
  match findDesc "resumptionToken" xml with
  | none => none
  | some e =>
    match e.text with
    | none => none
    | some t => if t = "" then none else some t

/-- One pagination traversal, run against the list of successful response
envelopes the server returns in order (each being the tree `_request`
produced for the corresponding dispatch). Returns the full parameter list
of every dispatched request, the matched item elements in yield order, and
whether the traversal reached its break (`false` means the supplied
envelope list ran out while a token was still pending). -/
def paginate (verb itemTag : String) :
    List (String × Option String) → List XElem →
    List (List (String × String)) × List XElem × Bool
  | _, [] => ([], [], false)
  | params, page :: rest =>
      let req := buildParams verb params
      let items := findall itemTag page
      match tokenOf page with
      | none => ([req], items, true)
      | some t =>
          let next := paginate verb itemTag [("resumptionToken", some t)] rest
          (req :: next.1, items ++ next.2.1, next.2.2)

/-! ## Verb operations -/

/-- The initial `params` dict of `list_records` / `list_identifiers`
(before `_request` drops the `None` entries). -/
def listSelectionParams (metadataPfx : String) (fromDate untilDate : Option Datestamp)
    (setSpec : Option String) : List (String × Option String) :=
  [("metadataPrefix", some metadataPfx),
   ("from", optFormat fromDate),
   ("until", optFormat untilDate),
   ("set", setSpec)]

/-- `OAIClient.list_records` as a traversal over the given response pages. -/
def list_records (metadataPfx : String) (fromDate untilDate : Option Datestamp)
    (setSpec : Option String) (pages : List XElem) :
    List (List (String × String)) × List XElem × Bool :=
  paginate "ListRecords" "record" (listSelectionParams metadataPfx fromDate untilDate setSpec) pages

/-- `OAIClient.list_identifiers` as a traversal over the given response
pages. -/
def list_identifiers (metadataPfx : String) (fromDate untilDate : Option Datestamp)
    (setSpec : Option String) (pages : List XElem) :
    List (List (String × String)) × List XElem × Bool :=
  paginate "ListIdentifiers" "header" (listSelectionParams metadataPfx fromDate untilDate setSpec) pages

/-- `OAIClient.list_sets` as a traversal over the given response pages
(its initial `params` dict is empty). -/
def list_sets (pages : List XElem) :
    List (List (String × String)) × List XElem × Bool :=
  paginate "ListSets" "set" [] pages

/-- The `params` dict of `list_metadata_formats`: `identifier` is added
only when truthy (so an empty string is dropped like `None`). -/
def listMetadataFormatsParams (identifier : Option String) :
    List (String × Option String) :=
  match identifier with
  | some s => if s = "" then [] else [("identifier", some s)]
  | none => []

/-- `OAIClient.identify` around one transport outcome: dispatch, then
require the mandatory direct child `oai:Identify`, raising
`OAIError("Invalid response: missing Identify element")` when absent. -/
def identify (outcome : TransportOutcome) : Except Failure XElem :=
  match request outcome with
  | .error f => .error f
  | .ok xml =>
      match findChild "Identify" xml with
      | none => .error (.oai .oaiError "Invalid response: missing Identify element")
      | some e => .ok e

/-- `OAIClient.get_record` around one transport outcome: dispatch, then
require a `.//oai:record` descendant, raising
`OAIError("Invalid response: missing record element")` when absent. -/
def get_record (outcome : TransportOutcome) : Except Failure XElem :=
  match request outcome with
  | .error f => .error f
  | .ok xml =>
      match findDesc "record" xml with
      | none => .error (.oai .oaiError "Invalid response: missing record element")
      | some e => .ok e

/-! ## Concrete response fixtures -/

/-- A record element carrying an identifying header, as in the test data
`list_records_resumption.xml` / `list_records_final.xml`. -/
def recordEl (ident : String) : XElem :=
  .mk "record" [] none
    [.mk "header" [] none [.mk "identifier" [] (some ident) []]]

/-- First page of the resumption scenario: two records and a resumption
token `token123`. -/
def pageWithToken : XElem :=
  .mk "OAI-PMH" [] none
    [.mk "ListRecords" [] none
      [recordEl "oai:example.org:1", recordEl "oai:example.org:2",
       .mk "resumptionToken" [] (some "token123") []]]

/-- Final page of the resumption scenario: one record, no token. -/
def pageFinal : XElem :=
  .mk "OAI-PMH" [] none
    [.mk "ListRecords" [] none [recordEl "oai:example.org:3"]]

/-- A page whose resumption token's text is a single blank. -/
def pageBlankToken : XElem :=
  .mk "OAI-PMH" [] none
    [.mk "ListRecords" [] none
      [recordEl "oai:example.org:1",
       .mk "resumptionToken" [] (some " ") []]]

/-- The error element and envelope of scenario 2:
`<error code="badArgument">The request includes illegal arguments.</error>`. -/
def badArgumentErrorEl : XElem :=
  .mk "error" [("code", "badArgument")]
    (some "The request includes illegal arguments.") []

def badArgumentEnvelope : XElem :=
  .mk "OAI-PMH" [] none [badArgumentErrorEl]

/-- A well-formed envelope with neither an error element nor any payload
child. -/
def emptyEnvelope : XElem :=
  .mk "OAI-PMH" [] none
    [.mk "responseDate" [] (some "2024-01-01T00:00:00Z") []]

/-- The UTC civil fields of a datetime at second precision: the
broken-down representation of the instant the value denotes (for a naive
value, of the instant obtained by reading its fields as UTC). Two
datetimes denote the same UTC instant at second precision exactly when
these six fields agree. -/
def utcFields (d : PyDateTime) : Nat × Nat × Nat × Nat × Nat × Nat :=
  ((toUTC d).year, (toUTC d).month, (toUTC d).day,
   (toUTC d).hour, (toUTC d).minute, (toUTC d).second)

/-! ## Supporting lemmas -/

theorem digitChar_isDigit {n : Nat} (h : n < 10) : (Nat.digitChar n).isDigit = true := by
  interval_cases n <;> decide

theorem decAux_digits : ∀ (fuel n : Nat) (acc : List Char), n < fuel →
    (∀ c ∈ acc, c.isDigit = true) → ∀ c ∈ decAux fuel n acc, c.isDigit = true := by
  intro fuel
  induction fuel with
  | zero => intro n acc h _ _ _; omega
  | succ f ih =>
    intro n acc hlt hacc c hc
    simp only [decAux] at hc
    by_cases h10 : n < 10
    · simp only [if_pos h10] at hc
      rcases List.mem_cons.mp hc with h | h
      · subst h; exact digitChar_isDigit h10
      · exact hacc c h
    · simp only [if_neg h10] at hc
      have hfuel : n / 10 < f := by
        have := Nat.div_lt_self (by omega : 0 < n) (by omega : 1 < 10)
        omega
      refine ih (n / 10) _ hfuel ?_ c hc
      intro c' hc'
      rcases List.mem_cons.mp hc' with h | h
      · subst h; exact digitChar_isDigit (Nat.mod_lt _ (by omega))
      · exact hacc c' h

theorem dec_digits (n : Nat) : ∀ c ∈ dec n, c.isDigit = true :=
  decAux_digits (n + 1) n [] (Nat.lt_succ_self n) (by simp)

theorem decAux_len_le : ∀ (fuel w n : Nat) (acc : List Char), n < 10 ^ w → 0 < w →
    n < fuel → (decAux fuel n acc).length ≤ w + acc.length := by
  intro fuel
  induction fuel with
  | zero => intro w n acc _ _ h; omega
  | succ f ih =>
    intro w n acc hw hpos _
    simp only [decAux]
    by_cases h10 : n < 10
    · simp only [if_pos h10, List.length_cons]; omega
    · simp only [if_neg h10]
      have hw2 : 2 ≤ w := by
        rcases Nat.lt_or_ge w 2 with h | h
        · have : w = 1 := by omega
          subst this
          simp [pow_one] at hw; omega
        · exact h
      have hpow : (10 : Nat) ^ w = 10 ^ (w - 1) * 10 := by
        conv_lhs => rw [show w = (w - 1) + 1 by omega]
        rw [pow_succ]
      have hdiv : n / 10 < 10 ^ (w - 1) := Nat.div_lt_of_lt_mul (by omega)
      have hfuel : n / 10 < f := by
        have := Nat.div_lt_self (by omega : 0 < n) (by omega : 1 < 10)
        omega
      have := ih (w - 1) (n / 10) (Nat.digitChar (n % 10) :: acc) hdiv (by omega) hfuel
      simp only [List.length_cons] at this
      omega

theorem dec_len_le {w n : Nat} (hw : 0 < w) (h : n < 10 ^ w) : (dec n).length ≤ w := by
  have := decAux_len_le (n + 1) w n [] h hw (Nat.lt_succ_self n)
  simpa using this

theorem decAux_len_pos : ∀ (fuel n : Nat) (acc : List Char), n < fuel →
    acc.length < (decAux fuel n acc).length := by
  intro fuel
  induction fuel with
  | zero => intro n acc h; omega
  | succ f ih =>
    intro n acc hlt
    simp only [decAux]
    by_cases h10 : n < 10
    · simp [if_pos h10]
    · simp only [if_neg h10]
      have hfuel : n / 10 < f := by
        have := Nat.div_lt_self (by omega : 0 < n) (by omega : 1 < 10)
        omega
      have := ih (n / 10) (Nat.digitChar (n % 10) :: acc) hfuel
      simp only [List.length_cons] at this
      omega

theorem zpad_length {w n : Nat} (hw : 0 < w) (h : n < 10 ^ w) : (zpad w n).length = w := by
  have hle := dec_len_le hw h
  simp only [zpad, List.length_append, List.length_replicate]
  omega

theorem zpad_digits (w n : Nat) : ∀ c ∈ zpad w n, c.isDigit = true := by
  intro c hc
  rcases List.mem_append.mp hc with h | h
  · rw [List.eq_of_mem_replicate h]; decide
  · exact dec_digits n c h

theorem digitsThen_of_digits (sep : Char) :
    ∀ (l rest : List Char), (∀ c ∈ l, c.isDigit = true) →
      digitsThen l.length sep (l ++ sep :: rest) = some rest := by
  intro l
  induction l with
  | nil => intro rest _; simp [digitsThen]
  | cons c cs ih =>
    intro rest hdig
    have hc : c.isDigit = true := hdig c (by simp)
    simp only [List.length_cons, List.cons_append, digitsThen, hc, if_pos]
    exact ih rest (fun c' h => hdig c' (by simp [h]))

theorem render_shape {y mo dd h mi s : Nat} (hy : y < 10000) (hmo : mo < 100)
    (hdd : dd < 100) (hh : h < 100) (hmi : mi < 100) (hs : s < 100) :
    isOAITimestamp (render y mo dd h mi s) = true := by
  have p4 : ∀ (n : Nat) (sep : Char) (rest : List Char), n < 10000 →
      digitsThen 4 sep (zpad 4 n ++ sep :: rest) = some rest := by
    intro n sep rest hn
    have := digitsThen_of_digits sep (zpad 4 n) rest (zpad_digits 4 n)
    rwa [zpad_length (by omega) (by norm_num; omega)] at this
  have p2 : ∀ (n : Nat) (sep : Char) (rest : List Char), n < 100 →
      digitsThen 2 sep (zpad 2 n ++ sep :: rest) = some rest := by
    intro n sep rest hn
    have := digitsThen_of_digits sep (zpad 2 n) rest (zpad_digits 2 n)
    rwa [zpad_length (by omega) (by norm_num; omega)] at this
  have hdata : (render y mo dd h mi s).data =
      zpad 4 y ++ '-' :: (zpad 2 mo ++ '-' :: (zpad 2 dd ++ 'T' ::
        (zpad 2 h ++ ':' :: (zpad 2 mi ++ ':' :: (zpad 2 s ++ 'Z' :: []))))) := rfl
  rw [isOAITimestamp, hdata, p4 y '-' _ hy, Option.some_bind, p2 mo '-' _ hmo,
    Option.some_bind, p2 dd 'T' _ hdd, Option.some_bind, p2 h ':' _ hh,
    Option.some_bind, p2 mi ':' _ hmi, Option.some_bind, p2 s 'Z' _ hs]
  rfl

theorem paginate_request_after_first (verb itemTag : String) :
    ∀ (pages : List XElem) (params : List (String × Option String)) (i : Nat)
      (req : List (String × String)),
      (paginate verb itemTag params pages).1.get? (i + 1) = some req →
      ∃ (p : XElem) (t : String), pages.get? i = some p ∧ tokenOf p = some t ∧
        req = [("verb", verb), ("resumptionToken", t)] := by
  intro pages
  induction pages with
  | nil => intro params i req h; simp [paginate] at h
  | cons page rest ih =>
    intro params i req h
    simp only [paginate] at h
    rcases htok : tokenOf page with _ | t <;> rw [htok] at h
    · simp at h
    · simp only [List.get?] at h
      cases i with
      | zero =>
        cases rest with
        | nil => simp [paginate] at h
        | cons q qs =>
          simp only [paginate] at h
          rcases htok2 : tokenOf q with _ | t2 <;> rw [htok2] at h <;>
            simp only [List.get?, Option.some.injEq] at h <;>
            exact ⟨page, t, rfl, htok, by rw [← h]; rfl⟩
      | succ j =>
        obtain ⟨p, t', hp, ht', hr⟩ := ih [("resumptionToken", some t)] j req h
        exact ⟨p, t', by simpa using hp, ht', hr⟩

/-! ## Claim theorems -/

/-- C1: for every paginated verb (`list_sets`, `list_identifiers`,
`list_records`), every dispatch after the first page — issued because the
previous page carried a resumption token — has exactly the two parameters
`verb` and `resumptionToken`, the latter with the token's value; none of
the selection parameters `metadataPrefix`, `from`, `until`, `set` appear
in such a request. -/
theorem resumption_request_disjointness :
    (∀ (mp : String) (fd ud : Option Datestamp) (ss : Option String)
        (pages : List XElem) (i : Nat) (req : List (String × String)),
      (list_records mp fd ud ss pages).1.get? (i + 1) = some req →
      ∃ (p : XElem) (t : String), pages.get? i = some p ∧ tokenOf p = some t ∧
        req = [("verb", "ListRecords"), ("resumptionToken", t)] ∧
        req.map Prod.fst = ["verb", "resumptionToken"])
    ∧ (∀ (mp : String) (fd ud : Option Datestamp) (ss : Option String)
        (pages : List XElem) (i : Nat) (req : List (String × String)),
      (list_identifiers mp fd ud ss pages).1.get? (i + 1) = some req →
      ∃ (p : XElem) (t : String), pages.get? i = some p ∧ tokenOf p = some t ∧
        req = [("verb", "ListIdentifiers"), ("resumptionToken", t)] ∧
        req.map Prod.fst = ["verb", "resumptionToken"])
    ∧ (∀ (pages : List XElem) (i : Nat) (req : List (String × String)),
      (list_sets pages).1.get? (i + 1) = some req →
      ∃ (p : XElem) (t : String), pages.get? i = some p ∧ tokenOf p = some t ∧
        req = [("verb", "ListSets"), ("resumptionToken", t)] ∧
        req.map Prod.fst = ["verb", "resumptionToken"]) := by
  refine ⟨?_, ?_, ?_⟩
  · intro mp fd ud ss pages i req h
    obtain ⟨p, t, hp, ht, hr⟩ := paginate_request_after_first _ _ pages _ i req h
    exact ⟨p, t, hp, ht, hr, by subst hr; rfl⟩
  · intro mp fd ud ss pages i req h
    obtain ⟨p, t, hp, ht, hr⟩ := paginate_request_after_first _ _ pages _ i req h
    exact ⟨p, t, hp, ht, hr, by subst hr; rfl⟩
  · intro pages i req h
    obtain ⟨p, t, hp, ht, hr⟩ := paginate_request_after_first _ _ pages _ i req h
    exact ⟨p, t, hp, ht, hr, by subst hr; rfl⟩

/-- Witness for C1: in the two-page `list_records` traversal the second
dispatch is exactly `{verb: ListRecords, resumptionToken: token123}`. -/
theorem resumption_request_disjointness_witness :
    ∃ (p : XElem) (t : String),
      [pageWithToken, pageFinal].get? 0 = some p ∧ tokenOf p = some t ∧
      [("verb", "ListRecords"), ("resumptionToken", "token123")] =
        [("verb", "ListRecords"), ("resumptionToken", t)] ∧
      ([("verb", "ListRecords"), ("resumptionToken", "token123")] :
          List (String × String)).map Prod.fst = ["verb", "resumptionToken"] :=
  resumption_request_disjointness.1 "oai_dc" none none none
    [pageWithToken, pageFinal] 0 _ rfl

/-- C2 counterexample: a page whose resumption-token element has the
blank (whitespace-only, non-empty) text `" "` does not end the traversal —
a second dispatch is issued, and the request count is 2, not 1. -/
theorem pagination_blank_token_counterexample :
    (findDesc "resumptionToken" pageBlankToken).map XElem.text = some (some " ")
    ∧ (list_records "oai_dc" none none none [pageBlankToken, pageFinal]).1.length = 2
    ∧ (list_records "oai_dc" none none none [pageBlankToken, pageFinal]).1.get? 1 =
        some [("verb", "ListRecords"), ("resumptionToken", " ")] :=
  ⟨rfl, rfl, rfl⟩

/-- C2 (amended): for every paginated verb, if a page's response contains
no resumption-token element, or contains one whose text is absent
(`None`) or the empty string, then the traversal ends after yielding that
page's matched elements in document order and no further dispatch is
issued; a whitespace-only (blank but non-empty) token text is truthy and
does not terminate. -/
theorem pagination_termination (verb itemTag : String)
    (params : List (String × Option String)) (page : XElem) (rest : List XElem)
    (h : findDesc "resumptionToken" page = none ∨
      ∃ e, findDesc "resumptionToken" page = some e ∧
        (XElem.text e = none ∨ XElem.text e = some "")) :
    paginate verb itemTag params (page :: rest) =
      ([buildParams verb params], findall itemTag page, true) := by
  have htok : tokenOf page = none := by
    rcases h with h | ⟨e, he, h2 | h2⟩
    · simp [tokenOf, h]
    · simp [tokenOf, he, h2]
    · simp [tokenOf, he, h2]
  simp [paginate, htok]

/-- Witness for C2: a final page with no token element ends a
`list_records` traversal at once, yielding its single record. -/
theorem pagination_termination_witness :
    paginate "ListRecords" "record"
        (listSelectionParams "oai_dc" none none none) [pageFinal] =
      ([[("verb", "ListRecords"), ("metadataPrefix", "oai_dc")]],
       [recordEl "oai:example.org:3"], true) :=
  pagination_termination "ListRecords" "record"
    (listSelectionParams "oai_dc" none none none) pageFinal [] (Or.inl rfl)

/-- C3: when the envelope contains an error element, the raised failure's
kind is the one `OAI_ERROR_MAP` assigns to the element's `code` attribute;
the eight enumerated codes map to eight pairwise-distinct kinds, every code
outside the enumeration maps to the generic `OAIError` kind, and the
failure's message is the element's text, or the empty string when the text
is absent. -/
theorem error_code_mapping (xml e : XElem)
    (h : findChild "error" xml = some e) :
    checkEnvelope xml = .error (.oai (errKindOf (e.attrD "code" "")) e.textD)
    ∧ (XElem.text e = none → e.textD = "")
    ∧ (∀ s, XElem.text e = some s → e.textD = s)
    ∧ errKindOf "badArgument" = .badArgument
    ∧ errKindOf "badResumptionToken" = .badResumptionToken
    ∧ errKindOf "badVerb" = .badVerb
    ∧ errKindOf "cannotDisseminateFormat" = .cannotDisseminateFormat
    ∧ errKindOf "idDoesNotExist" = .idDoesNotExist
    ∧ errKindOf "noRecordsMatch" = .noRecordsMatch
    ∧ errKindOf "noMetadataFormats" = .noMetadataFormats
    ∧ errKindOf "noSetHierarchy" = .noSetHierarchy
    ∧ ([ErrKind.badArgument, .badResumptionToken, .badVerb,
        .cannotDisseminateFormat, .idDoesNotExist, .noRecordsMatch,
        .noMetadataFormats, .noSetHierarchy, .oaiError] : List ErrKind).Nodup
    ∧ (∀ code : String, code ∉ OAI_ERROR_MAP.map Prod.fst →
        errKindOf code = .oaiError) := by
  refine ⟨by simp [checkEnvelope, h], by intro h2; simp [XElem.textD, h2],
    by intro s h2; simp [XElem.textD, h2], rfl, rfl, rfl, rfl, rfl, rfl, rfl, rfl,
    by decide, ?_⟩
  intro code hcode
  simp only [OAI_ERROR_MAP, List.map, List.mem_cons, List.not_mem_nil, or_false,
    not_or] at hcode
  obtain ⟨h1, h2, h3, h4, h5, h6, h7, h8⟩ := hcode
  simp [errKindOf, OAI_ERROR_MAP, List.lookup,
    beq_eq_false_iff_ne.mpr h1, beq_eq_false_iff_ne.mpr h2,
    beq_eq_false_iff_ne.mpr h3, beq_eq_false_iff_ne.mpr h4,
    beq_eq_false_iff_ne.mpr h5, beq_eq_false_iff_ne.mpr h6,
    beq_eq_false_iff_ne.mpr h7, beq_eq_false_iff_ne.mpr h8]

/-- Witness for C3: a `badArgument` error envelope (scenario 2's fixture)
fails with the `badArgument` kind carrying the server's message. -/
theorem error_code_mapping_witness :
    checkEnvelope badArgumentEnvelope =
      .error (.oai (errKindOf (badArgumentErrorEl.attrD "code" ""))
        badArgumentErrorEl.textD)
    ∧ errKindOf "badArgument" = .badArgument :=
  ⟨(error_code_mapping badArgumentEnvelope badArgumentErrorEl rfl).1,
   (error_code_mapping badArgumentEnvelope badArgumentErrorEl rfl).2.2.2.1⟩

/-- C4: in the two-page `list_records` scenario (first page: two records
and token `token123`; second page, requested with exactly
`{verb: ListRecords, resumptionToken: token123}`: one record, no token)
the consumer observes exactly the three records in page order then
document order, and exactly two dispatches are made. -/
theorem list_records_two_page_scenario :
    list_records "oai_dc" none none none [pageWithToken, pageFinal] =
      ([[("verb", "ListRecords"), ("metadataPrefix", "oai_dc")],
        [("verb", "ListRecords"), ("resumptionToken", "token123")]],
       [recordEl "oai:example.org:1", recordEl "oai:example.org:2",
        recordEl "oai:example.org:3"], true)
    ∧ (list_records "oai_dc" none none none [pageWithToken, pageFinal]).2.1 =
        findall "record" pageWithToken ++ findall "record" pageFinal
    ∧ (list_records "oai_dc" none none none [pageWithToken, pageFinal]).1.length = 2
    ∧ (list_records "oai_dc" none none none [pageWithToken, pageFinal]).2.1.length = 3 :=
  ⟨rfl, rfl, rfl, rfl⟩

theorem daysInMonth_le (y m : Nat) : daysInMonth y m ≤ 31 := by
  unfold daysInMonth
  split
  · split <;> omega
  · split <;> omega

/-- C5: for every structured date/time input that the `datetime` library
accepts (and whose UTC conversion stays inside the `datetime` range, as
Python requires on pain of `OverflowError`), the formatter's output has
the exact shape `YYYY-MM-DDTHH:MM:SSZ` at second precision with no
fractional seconds; a value carrying no timezone keeps its fields (it is
treated as UTC), one carrying a timezone is converted via `toUTC`; and the
naive value `datetime(2024, 1, 1, 12, 0, 0)` passed as `from` to
`list_records` produces the request parameter
`from=2024-01-01T12:00:00Z`. -/
theorem datestamp_format_shape (d : PyDateTime)
    (_h1 : isValid d = true) (h2 : isValid (toUTC d) = true) :
    isOAITimestamp (formatDatestamp (.dt d)) = true
    ∧ (d.tzoffset = none →
        formatDatestamp (.dt d) =
          render d.year d.month d.day d.hour d.minute d.second)
    ∧ formatDatestamp (.dt ⟨2024, 1, 1, 12, 0, 0, 0, none⟩) =
        "2024-01-01T12:00:00Z"
    ∧ ("from", "2024-01-01T12:00:00Z") ∈
        buildParams "ListRecords"
          (listSelectionParams "oai_dc"
            (some (.dt ⟨2024, 1, 1, 12, 0, 0, 0, none⟩)) none none) := by
  refine ⟨?_, ?_, rfl, by decide⟩
  · simp only [isValid, Bool.and_eq_true, decide_eq_true_eq] at h2
    have hdm := daysInMonth_le (toUTC d).year (toUTC d).month
    exact render_shape (by omega) (by omega) (by omega) (by omega)
      (by omega) (by omega)
  · intro hnone
    simp [formatDatestamp, toUTC, hnone]

/-- Witness for C5 at the naive value `datetime(2024, 1, 1, 12, 0, 0)`. -/
theorem datestamp_format_shape_witness :
    isOAITimestamp (formatDatestamp (.dt ⟨2024, 1, 1, 12, 0, 0, 0, none⟩)) = true :=
  (datestamp_format_shape ⟨2024, 1, 1, 12, 0, 0, 0, none⟩
    (by decide) (by decide)).1

/-- C6: a naive structured date/time and a timezone-aware one denoting
the same UTC instant (same second-precision UTC civil fields) format to
the identical string; a string input is returned unchanged, hence applying
the formatter to its own output is the identity. -/
theorem datestamp_format_algebra :
    (∀ d₁ d₂ : PyDateTime, d₁.tzoffset = none → d₂.tzoffset ≠ none →
      utcFields d₁ = utcFields d₂ →
      formatDatestamp (.dt d₁) = formatDatestamp (.dt d₂))
    ∧ (∀ s : String, formatDatestamp (.str s) = s)
    ∧ (∀ x : Datestamp,
        formatDatestamp (.str (formatDatestamp x)) = formatDatestamp x) := by
  refine ⟨?_, fun s => rfl, fun x => rfl⟩
  intro d₁ d₂ _ _ hf
  simp only [utcFields, Prod.mk.injEq] at hf
  obtain ⟨hy, hmo, hdd, hh, hmi, hs⟩ := hf
  simp only [formatDatestamp, hy, hmo, hdd, hh, hmi, hs]

/-- Witness for C6: the naive `2024-01-01 23:30:00` and the aware
`2024-01-02 00:30:00+01:00` denote the same instant across a midnight
boundary and format identically; a string passes through unchanged. -/
theorem datestamp_format_algebra_witness :
    formatDatestamp (.dt ⟨2024, 1, 1, 23, 30, 0, 0, none⟩) =
      formatDatestamp (.dt ⟨2024, 1, 2, 0, 30, 0, 0, some 3600⟩)
    ∧ formatDatestamp (.str "2024-01-01T12:00:00Z") = "2024-01-01T12:00:00Z" :=
  ⟨datestamp_format_algebra.1 ⟨2024, 1, 1, 23, 30, 0, 0, none⟩
      ⟨2024, 1, 2, 0, 30, 0, 0, some 3600⟩ rfl (by decide) (by decide),
   datestamp_format_algebra.2.1 "2024-01-01T12:00:00Z"⟩

/-- C7: in every constructed request, a keyword parameter supplied with a
non-`None` value is included verbatim, and (with the keyword set behaving
as a Python dict: pairwise-distinct keys) a `None`-valued parameter's key
does not occur in the request at all — in particular it is not sent as an
empty string. -/
theorem optional_parameter_filtering (verb : String)
    (kwargs : List (String × Option String)) (k v : String) :
    ((k, some v) ∈ kwargs → (k, v) ∈ buildParams verb kwargs)
    ∧ ((kwargs.map Prod.fst).Nodup → (k, none) ∈ kwargs → k ≠ "verb" →
        k ∉ (buildParams verb kwargs).map Prod.fst) := by
  constructor
  · intro h
    exact List.mem_cons_of_mem _ (List.mem_filterMap.mpr ⟨(k, some v), h, rfl⟩)
  · intro hnd hmem hverb hcontra
    simp only [buildParams, List.map_cons, List.mem_cons] at hcontra
    rcases hcontra with h | h
    · exact hverb h
    · obtain ⟨pair, hpair, hfst⟩ := List.mem_map.mp h
      obtain ⟨⟨k', ov⟩, hin, heq⟩ := List.mem_filterMap.mp hpair
      obtain ⟨w, hw, hweq⟩ := Option.map_eq_some'.mp heq
      have hk' : k' = k := by rw [← hweq] at hfst; exact hfst
      subst hk'
      have : ((k', none) : String × Option String) = (k', some w) :=
        List.inj_on_of_nodup_map hnd hmem (hw ▸ hin) rfl
      simp at this

/-- Witness for C7: with `list_identifiers`-style keywords,
`metadataPrefix=oai_dc` is sent verbatim while the `None`-valued `from`
never appears. -/
theorem optional_parameter_filtering_witness :
    ("metadataPrefix", "oai_dc") ∈
      buildParams "ListIdentifiers"
        [("metadataPrefix", some "oai_dc"), ("from", none)]
    ∧ "from" ∉ (buildParams "ListIdentifiers"
        [("metadataPrefix", some "oai_dc"), ("from", none)]).map Prod.fst :=
  ⟨(optional_parameter_filtering "ListIdentifiers"
      [("metadataPrefix", some "oai_dc"), ("from", none)]
      "metadataPrefix" "oai_dc").1 (by decide),
   (optional_parameter_filtering "ListIdentifiers"
      [("metadataPrefix", some "oai_dc"), ("from", none)]
      "from" "").2 (by decide) (by decide) (by decide)⟩

/-- C8 counterexample: on a well-formed envelope with no error element
and no `Identify` child, `identify` fails with kind `ErrKind.oaiError` —
the very same kind an unrecognized protocol error code maps to — so the
failure kind is not distinct from the generic protocol-error kind. -/
theorem missing_payload_kind_counterexample :
    identify (.response 200 (some emptyEnvelope)) =
      .error (.oai .oaiError "Invalid response: missing Identify element")
    ∧ get_record (.response 200 (some emptyEnvelope)) =
      .error (.oai .oaiError "Invalid response: missing record element")
    ∧ errKindOf "someUnrecognizedCode" = .oaiError :=
  ⟨rfl, rfl, rfl⟩

/-- C8 (amended): a response that reports no protocol error but lacks the
mandatory payload element makes `identify` (missing `Identify` child) and
`get_record` (missing `record` descendant) fail by raising the base
`OAIError` — the same kind as the generic protocol error, not a distinct
structural kind — with the message `Invalid response: missing ... element`;
neither ever returns a silent empty result. -/
theorem missing_payload_raises (xml : XElem)
    (herr : findChild "error" xml = none) :
    (findChild "Identify" xml = none →
      identify (.response 200 (some xml)) =
        .error (.oai .oaiError "Invalid response: missing Identify element"))
    ∧ (findDesc "record" xml = none →
      get_record (.response 200 (some xml)) =
        .error (.oai .oaiError "Invalid response: missing record element")) := by
  constructor
  · intro h
    simp [identify, request, checkEnvelope, herr, h]
  · intro h
    simp [get_record, request, checkEnvelope, herr, h]

/-- Witness for C8 at the empty envelope. -/
theorem missing_payload_raises_witness :
    identify (.response 200 (some emptyEnvelope)) =
      .error (.oai .oaiError "Invalid response: missing Identify element")
    ∧ get_record (.response 200 (some emptyEnvelope)) =
      .error (.oai .oaiError "Invalid response: missing record element") :=
  ⟨(missing_payload_raises emptyEnvelope rfl).1 rfl,
   (missing_payload_raises emptyEnvelope rfl).2 rfl⟩

/-- C9: a connection failure and a non-success HTTP status each fail the
dispatch with the transport kind, and a 2xx response whose body is not
well-formed XML fails it with the malformed-response kind; each failure is
the immediate result of that dispatch. -/
theorem transport_failure_taxonomy (status : Nat) (body : Option XElem) :
    request .connError = .error .transportError
    ∧ (¬(200 ≤ status ∧ status < 300) →
        request (.response status body) = .error .transportError)
    ∧ ((200 ≤ status ∧ status < 300) →
        request (.response status none) = .error .malformedResponse) := by
  refine ⟨rfl, ?_, ?_⟩
  · intro h
    simp [request, h]
  · intro h
    simp [request, h]

/-- Witness for C9: a 404 response is a transport failure and a 200
response with an unparseable body is a malformed-response failure. -/
theorem transport_failure_taxonomy_witness :
    request (.response 404 (some emptyEnvelope)) = .error .transportError
    ∧ request (.response 200 none) = .error .malformedResponse :=
  ⟨(transport_failure_taxonomy 404 (some emptyEnvelope)).2.1 (by omega),
   (transport_failure_taxonomy 200 none).2.2 (by omega)⟩

/-- C10: empty-string optional arguments are handled asymmetrically: an
empty-string `set_spec` survives the `None` filter and is sent as
`set=` with the empty value for both `list_records` and
`list_identifiers`, while an empty-string `from_date`/`until_date`
(falsy in `x if x else None`) and an empty-string identifier in
`list_metadata_formats` (guarded by `if identifier:`) are omitted from
the request entirely. -/
theorem empty_string_asymmetry :
    ("set", "") ∈ buildParams "ListRecords"
      (listSelectionParams "oai_dc" none none (some ""))
    ∧ ("set", "") ∈ buildParams "ListIdentifiers"
      (listSelectionParams "oai_dc" none none (some ""))
    ∧ "set" ∉ (buildParams "ListRecords"
        (listSelectionParams "oai_dc" none none none)).map Prod.fst
    ∧ "from" ∉ (buildParams "ListRecords"
        (listSelectionParams "oai_dc" (some (.str "")) none none)).map Prod.fst
    ∧ "until" ∉ (buildParams "ListRecords"
        (listSelectionParams "oai_dc" none (some (.str "")) none)).map Prod.fst
    ∧ listMetadataFormatsParams (some "") = []
    ∧ buildParams "ListMetadataFormats" (listMetadataFormatsParams (some "")) =
        [("verb", "ListMetadataFormats")] := by
  refine ⟨by decide, by decide, by decide, by decide, by decide, rfl, rfl⟩
